import Mathlib

/- Shallow embedding of the wkreport scraper (src/run.py): the WaniKani profile
scraper `WaniKaniScraper` (fetch_profile, get_stats), the report rendering and
webhook delivery performed by `run`, and the surrounding error behaviour.

The parsed HTML page is abstracted as a `Doc` structure holding, for each
BeautifulSoup query the code performs, the element (or absence) that the query
returns.  Python exceptions are modelled by the `PyError` sum type; every
Python expression that can raise is embedded as an `Except PyError` value, and
the evaluation order of the Python source is preserved. -/

/-- Python exceptions raised (directly or by libraries) in src/run.py. -/
inductive PyError where
  /-- AttributeError: calling .text / .find on a None find() result. -/
  | attributeError (msg : String)
  /-- TypeError: subscripting a None find() result. -/
  | typeError (msg : String)
  /-- KeyError: dict or attribute subscript with a missing key. -/
  | keyError (key : String)
  /-- ValueError: int() or datetime.strptime() on malformed text. -/
  | valueError (msg : String)
  /-- IndexError: list index out of range. -/
  | indexError (msg : String)
  /-- NameError: reading a local variable that was never assigned. -/
  | nameError (name : String)
  /-- requests.HTTPError from Response.raise_for_status, carrying the status. -/
  | httpError (status : Nat)
  /-- requests.exceptions.MissingSchema from requests.post(url=None). -/
  | missingSchema (msg : String)
  /-- any other requests transport-level failure (timeout, reset, DNS). -/
  | requestException (msg : String)
deriving DecidableEq, Repr

/-- Result of datetime.strptime with format %Y-%m-%dT%H:%M:%SZ. -/
structure DateTime where
  year : Nat
  month : Nat
  day : Nat
  hour : Nat
  minute : Nat
  second : Nat
deriving DecidableEq, Repr

/-- Numeric value of a list of decimal digit characters. -/
def digitsVal (cs : List Char) : Nat :=
  cs.foldl (fun a c => a * 10 + (c.toNat - 48)) 0

/-- datetime.strptime(s, "%Y-%m-%dT%H:%M:%SZ") (src/run.py line 33): accepts
exactly the 20-character shape YYYY-MM-DDTHH:MM:SSZ with all-digit fields and
in-range month/day/hour/minute/second, else raises ValueError.  (The
day-of-month upper bound is simplified to 31 for every month; no claim
exercises month lengths.) -/
def strptimeWK (s : String) : Except PyError DateTime :=
  match s.data with
  | [y1, y2, y3, y4, '-', o1, o2, '-', d1, d2, 'T',
     h1, h2, ':', i1, i2, ':', e1, e2, 'Z'] =>
    if ([y1, y2, y3, y4, o1, o2, d1, d2, h1, h2, i1, i2, e1, e2].all Char.isDigit) then
      let y := digitsVal [y1, y2, y3, y4]
      let mo := digitsVal [o1, o2]
      let d := digitsVal [d1, d2]
      let h := digitsVal [h1, h2]
      let mi := digitsVal [i1, i2]
      let se := digitsVal [e1, e2]
      if 1 ≤ mo ∧ mo ≤ 12 ∧ 1 ≤ d ∧ d ≤ 31 ∧ h ≤ 23 ∧ mi ≤ 59 ∧ se ≤ 61 then
        .ok ⟨y, mo, d, h, mi, se⟩
      else .error (.valueError "time data does not match format")
    else .error (.valueError "time data does not match format")
  | _ => .error (.valueError "time data does not match format")

/-- One or more decimal digits, as a Nat; none otherwise. -/
def digitsToNat? (cs : List Char) : Option Nat :=
  if cs.isEmpty then none
  else if cs.all Char.isDigit then some (digitsVal cs) else none

/-- An optional minus sign followed by digits, as an Int. -/
def pyIntChars : List Char → Option Int
  | '-' :: rest => (digitsToNat? rest).map (fun n => -(n : Int))
  | cs => (digitsToNat? cs).map (fun n => (n : Int))

/-- Python int(s) on the text of a count element (src/run.py lines 43, 52):
an optional minus sign followed by digits, else ValueError.  (Pythonic extras
such as surrounding whitespace, a leading plus and underscore separators are
not exercised by any claim.) -/
def pyInt (s : String) : Except PyError Int :=
  match pyIntChars s.data with
  | some n => .ok n
  | none => .error (.valueError "invalid literal for int with base 10")

/-- soup.find(...).text — .text on a find() result that may be None raises
AttributeError.  The message is the same whichever anchor was missing. -/
def getText (o : Option String) : Except PyError String :=
  match o with
  | some t => .ok t
  | none => .error (.attributeError "NoneType object has no attribute text")

/-- Python dict subscript d[k]: the stored value, or KeyError. -/
def dictGet (d : List (String × α)) (k : String) : Except PyError α :=
  match d.find? (fun p => p.1 = k) with
  | some p => .ok p.2
  | none => .error (.keyError k)

/-- Python dict assignment d[k] = v: overwrite in place if the key exists
(keeping its position), else append.  Insertion order is preserved, matching
CPython dict semantics. -/
def dictSet : List (String × α) → String → α → List (String × α)
  | [], k, v => [(k, v)]
  | p :: rest, k, v => if p.1 = k then (k, v) :: rest else p :: dictSet rest k v

/-- k in d for a Python dict. -/
def hasKey (d : List (String × α)) (k : String) : Bool :=
  d.any (fun p => p.1 = k)

/-- One entry of a stage's "subjects" dict (src/run.py lines 50-53). -/
structure SubjectRec where
  title : String
  count : Int
deriving DecidableEq, Repr

/-- One entry of the "srs-stages" dict (src/run.py lines 41-45). -/
structure StageRec where
  title : String
  total : Int
  subjects : List (String × SubjectRec)
deriving DecidableEq, Repr

/-- One entry of the "progress" dict (src/run.py lines 65-69, 80-84). -/
structure CategoryProgress where
  known : Int
  max : String
  percent : String
deriving DecidableEq, Repr

/-- The stats dict returned by WaniKaniScraper.get_stats. -/
structure ProfileStats where
  username : String
  level : String
  stage : String
  serving_since : DateTime
  srsStages : List (String × StageRec)
  kanjiProg : CategoryProgress
  vocabProg : CategoryProgress
deriving DecidableEq, Repr

/-- One div.srs-progress__subject-type block: the text of its title div and
count div, each possibly absent. -/
structure SubjectBlock where
  titleDiv : Option String
  countDiv : Option String
deriving DecidableEq, Repr

/-- One li.srs-progress__stage block: title text, total text, and its list of
subject-type blocks in document order. -/
structure StageBlock where
  titleDiv : Option String
  totalDiv : Option String
  subjectBlocks : List SubjectBlock
deriving DecidableEq, Repr

/-- A progress-chart region (kanji or vocabulary): the text of its
progress-bar-label-count div and its bar-axis-max div. -/
structure ProgressDiv where
  labelCountDiv : Option String
  axisMaxDiv : Option String
deriving DecidableEq, Repr

/-- The parsed profile page, abstracted as the results of every BeautifulSoup
query get_stats performs.  `servingSinceSpan`: outer Option = was the
serving-since span found; middle = did it contain a time element; inner = did
that element carry a datetime attribute. -/
structure Doc where
  usernameDiv : Option String
  levelDiv : Option String
  stageDiv : Option String
  servingSinceSpan : Option (Option (Option String))
  stageBlocks : List StageBlock
  kanjiProgressDiv : Option ProgressDiv
  vocabProgressDiv : Option ProgressDiv
deriving DecidableEq, Repr

/-- src/run.py lines 27-28: find the serving-since span, call .find("time") on
it (AttributeError if the span is missing), subscript the result with
"datetime" (TypeError if the time element is missing, KeyError if the
attribute is). -/
def servingSinceStr (doc : Doc) : Except PyError String :=
  match doc.servingSinceSpan with
  | none => .error (.attributeError "NoneType object has no attribute find")
  | some none => .error (.typeError "NoneType object is not subscriptable")
  | some (some none) => .error (.keyError "datetime")
  | some (some (some s)) => .ok s

/-- src/run.py lines 47-53: the inner subject-type loop, threading the
subjects dict.  Order: title text, count text, int(count). -/
def extractSubjects : List SubjectBlock → List (String × SubjectRec) →
    Except PyError (List (String × SubjectRec))
  | [], acc => .ok acc
  | sb :: rest, acc => do
    let t ← getText sb.titleDiv
    let cs ← getText sb.countDiv
    let c ← pyInt cs
    extractSubjects rest (dictSet acc t { title := t, count := c })

/-- src/run.py lines 38-53: the stage loop, threading the srs-stages dict.
Order: title text, total text, int(total), then the subject loop.  Note the
title is not validated against any fixed set of stage names. -/
def extractStages : List StageBlock → List (String × StageRec) →
    Except PyError (List (String × StageRec))
  | [], acc => .ok acc
  | sb :: rest, acc => do
    let t ← getText sb.titleDiv
    let ts ← getText sb.totalDiv
    let total ← pyInt ts
    let subjects ← extractSubjects sb.subjectBlocks []
    extractStages rest
      (dictSet acc t { title := t, total := total, subjects := subjects })

/-- src/run.py lines 60-64 / 75-79: the generator inside sum(...), evaluated
left to right in dict order, skipping the stage titled "Apprentice" and
subscripting every other stage's subjects dict with the category name
(KeyError if absent). -/
def knownSumAux (cat : String) : List (String × StageRec) → Int → Except PyError Int
  | [], acc => .ok acc
  | (t, sd) :: rest, acc =>
    if t ≠ "Apprentice" then do
      let subj ← dictGet sd.subjects cat
      knownSumAux cat rest (acc + subj.count)
    else knownSumAux cat rest acc

/-- sum(stage_data["subjects"][cat]["count"] for stage_title, stage_data in
stats["srs-stages"].items() if stage_title != "Apprentice"). -/
def knownSum (cat : String) (stages : List (String × StageRec)) : Except PyError Int :=
  knownSumAux cat stages 0

/-- src/run.py lines 57-69 (cat = "Kanji") and 72-84 (cat = "Vocabulary"):
find the progress div (.find on None raises AttributeError if absent), read
the label-count text and the axis-max text, then compute the known sum. -/
def extractProgress (cat : String) (pd : Option ProgressDiv)
    (stages : List (String × StageRec)) : Except PyError CategoryProgress :=
  match pd with
  | none => .error (.attributeError "NoneType object has no attribute find")
  | some d => do
    let percent ← getText d.labelCountDiv
    let mx ← getText d.axisMaxDiv
    let known ← knownSum cat stages
    .ok { known := known, max := mx, percent := percent }

/-- WaniKaniScraper.get_stats (src/run.py lines 21-86), applied to the parsed
document.  Evaluation order follows the Python source: serving-since string
(lines 27-28), then the stats dict literal (username, level, stage, strptime),
then the stage loop, then kanji progress, then vocabulary progress. -/
def get_stats (doc : Doc) : Except PyError ProfileStats := do
  let ss ← servingSinceStr doc
  let username ← getText doc.usernameDiv
  let level ← getText doc.levelDiv
  let stage ← getText doc.stageDiv
  let servingSince ← strptimeWK ss
  let stages ← extractStages doc.stageBlocks []
  let kanji ← extractProgress "Kanji" doc.kanjiProgressDiv stages
  let vocab ← extractProgress "Vocabulary" doc.vocabProgressDiv stages
  .ok { username := username, level := level, stage := stage,
        serving_since := servingSince, srsStages := stages,
        kanjiProg := kanji, vocabProg := vocab }

/-- The fixed stage-title set of the spec's data-model invariant, which is
also exactly the set of titles the emoji chain in run() recognises. -/
def fixedStageTitles : List String :=
  ["Apprentice", "Guru", "Master", "Enlightened", "Burned"]

/-- src/run.py lines 114-123: the chain of five independent if-statements
reassigning the loop-local variable emoji.  `none` stands for "never assigned
so far"; an unrecognised title leaves the previous iteration's value. -/
def stageEmoji (stage : String) (emoji : Option String) : Option String :=
  let e1 := if stage = "Apprentice" then some ":egg:" else emoji
  let e2 := if stage = "Guru" then some ":hatching_chick:" else e1
  let e3 := if stage = "Master" then some ":hatched_chick:" else e2
  let e4 := if stage = "Enlightened" then some ":mage:" else e3
  let e5 := if stage = "Burned" then some ":fire:" else e4
  e5

/-- Reading the Python list element lines[i]: the element, or IndexError when
i is out of range. -/
def pyIndex (lines : List String) (i : Nat) : Except PyError String :=
  match lines[i]? with
  | some cur => .ok cur
  | none => .error (.indexError "list index out of range")

/-- Reading the loop-local variable emoji: its value, or NameError when it was
never assigned. -/
def readEmoji : Option String → Except PyError String
  | some e => .ok e
  | none => .error (.nameError "emoji")

/-- src/run.py lines 126-127: lines[i] += f'{subject}|{count}|' over a stage's
subjects with enumerate(..., start=1); reading lines[i] out of range raises
IndexError. -/
def addSubjectRows : List (String × SubjectRec) → Nat → List String →
    Except PyError (List String)
  | [], _, lines => .ok lines
  | (subj, sd) :: rest, i, lines => do
    let cur ← pyIndex lines i
    addSubjectRows rest (i + 1)
      (lines.set i (cur ++ subj ++ "|" ++ toString sd.count ++ "|"))

/-- src/run.py lines 113-127: the stage loop of run().  Threads the emoji
variable (Option String, none = unassigned: reading it raises NameError) and
the four table lines. -/
def buildTableLoop : List (String × StageRec) → Option String → List String →
    Except PyError (List String)
  | [], _, lines => .ok lines
  | (stage, sd) :: rest, emoji0, lines => do
    let e ← readEmoji (stageEmoji stage emoji0)
    let cur ← pyIndex lines 0
    let lines1 := lines.set 0
      (cur ++ stage ++ " " ++ e ++ "|" ++ toString sd.total ++ "|")
    let lines2 ← addSubjectRows sd.subjects 1 lines1
    buildTableLoop rest (stageEmoji stage emoji0) lines2

/-- Python list.insert(i, x) (clamping semantics). -/
def pyListInsert (i : Nat) (x : α) (xs : List α) : List α :=
  xs.take i ++ x :: xs.drop i

/-- The separator row inserted by src/run.py line 128. -/
def tableSeparator : String := "|---|---|---|---|---|"

/-- src/run.py lines 112-128: lines = ["|","|","|","|"], the stage loop, then
lines.insert(1, "|---|---|---|---|---|"). -/
def buildTable (stages : List (String × StageRec)) : Except PyError (List String) :=
  match buildTableLoop stages none ["|", "|", "|", "|"] with
  | .error e => .error e
  | .ok lines => .ok (pyListInsert 1 tableSeparator lines)

/-- src/run.py line 99. -/
def reportTitle (stats : ProfileStats) : String :=
  "#### WaniKani Report for " ++ stats.username ++ " (" ++ stats.stage ++ " "
    ++ stats.level ++ ")\n"

/-- src/run.py lines 100-104. -/
def kanjiLine (stats : ProfileStats) : String :=
  "Kanji Progression: " ++ toString stats.kanjiProg.known ++ "/"
    ++ stats.kanjiProg.max ++ " (" ++ stats.kanjiProg.percent ++ ")\n"

/-- src/run.py lines 105-109. -/
def vocabLine (stats : ProfileStats) : String :=
  "Vocabulary Progression: " ++ toString stats.vocabProg.known ++ "/"
    ++ stats.vocabProg.max ++ " (" ++ stats.vocabProg.percent ++ ")\n\n"

/-- src/run.py lines 99-133: the whole rendered message text, i.e. the
"text" field of the webhook payload:
"\n".join([title, kanji_progression, vocab_progression] + lines). -/
def buildText (stats : ProfileStats) : Except PyError String :=
  match buildTable stats.srsStages with
  | .error e => .error e
  | .ok lines =>
    .ok (String.intercalate "\n"
      ([reportTitle stats, kanjiLine stats, vocabLine stats] ++ lines))

/-- requests Response.raise_for_status (src/run.py line 18): raises HTTPError
exactly for client-error (4xx) and server-error (5xx) status codes. -/
def raise_for_status (status : Nat) : Except PyError Unit :=
  if 400 ≤ status ∧ status < 600 then .error (.httpError status) else .ok ()

/-- WaniKaniScraper.fetch_profile (src/run.py lines 14-19).  Its interaction
with the network is abstracted as `resp`: either a transport-level PyError or
the (final status code, parsed body) pair requests.get returned. -/
def fetch_profile (resp : Except PyError (Nat × Doc)) : Except PyError Doc := do
  let r ← resp
  let _ ← raise_for_status r.1
  .ok r.2

/-- get_stats including its internal fetch_profile call (src/run.py line 23). -/
def fetchAndParse (resp : Except PyError (Nat × Doc)) : Except PyError ProfileStats :=
  match fetch_profile resp with
  | .error e => .error e
  | .ok doc => get_stats doc

/-- requests.post(url=webhook_url, json=params) (src/run.py line 135).  url
is None when the --webhook-url option was omitted (click default): requests
raises MissingSchema before any network activity.  Otherwise the outcome is
the oracle `postResp`: a transport-level error or the response status code.
The returned Response is discarded by run(), which never checks its status. -/
def pyRequestsPost (url : Option String) (postResp : Except PyError Nat) :
    Except PyError Nat :=
  match url with
  | none => .error (.missingSchema "Invalid URL None: No scheme supplied")
  | some _ => postResp

instance exceptDecEq [DecidableEq ε] [DecidableEq α] : DecidableEq (Except ε α) := by
  intro a b
  cases a <;> cases b
  case error.error e1 e2 =>
    exact if h : e1 = e2 then .isTrue (by rw [h]) else .isFalse (by simp [h])
  case error.ok e1 a2 => exact .isFalse (by simp)
  case ok.error a1 e2 => exact .isFalse (by simp)
  case ok.ok a1 a2 =>
    exact if h : a1 = a2 then .isTrue (by rw [h]) else .isFalse (by simp [h])

/-- Outcome of one invocation of run(): the Python-level result (normal
return or uncaught exception) and the list of webhook POST attempts made,
each recorded as (url argument, text payload). -/
structure RunOutcome where
  result : Except PyError Unit
  postAttempts : List (Option String × String)
deriving DecidableEq, Repr

/-- The run() command body (src/run.py lines 92-135): get_stats (which
fetches), render the report, then a single requests.post.  An exception at
any step propagates and skips everything after it. -/
def run (fetchResp : Except PyError (Nat × Doc)) (postResp : Except PyError Nat)
    (webhookUrl : Option String) : RunOutcome :=
  match fetchAndParse fetchResp with
  | .error e => { result := .error e, postAttempts := [] }
  | .ok stats =>
    match buildText stats with
    | .error e => { result := .error e, postAttempts := [] }
    | .ok text =>
      match pyRequestsPost webhookUrl postResp with
      | .error e => { result := .error e, postAttempts := [(webhookUrl, text)] }
      | .ok _ => { result := .ok (), postAttempts := [(webhookUrl, text)] }

/-- Modelled from the spec: "`known` for a category is the sum of that
category's counts across all stages EXCEPT the first (Apprentice)".  Stated
over the same stage dict the code builds, to be compared with `knownSum`. -/
def specKnown (cat : String) (stages : List (String × StageRec)) : Int :=
  ((stages.filter (fun p => p.1 ≠ "Apprentice")).map
    (fun p => ((p.2.subjects.find? (fun q => q.1 = cat)).map
      (fun q => q.2.count)).getD 0)).sum

/-- A fully well-formed example document: every anchor present, one stage
block (Guru, total 7, subjects Kanji 3 and Vocabulary 4), kanji chart labels
count "120" and max "500", vocabulary chart labels "30%" and "1000".  Matches
the spec's end-to-end example in which the chart's own count label (120)
differs from the aggregated known count (3). -/
def goodDoc : Doc :=
  { usernameDiv := some "crabigator"
    levelDiv := some "12"
    stageDiv := some "Turtle"
    servingSinceSpan := some (some (some "2020-01-02T03:04:05Z"))
    stageBlocks :=
      [{ titleDiv := some "Guru", totalDiv := some "7",
         subjectBlocks :=
           [{ titleDiv := some "Kanji", countDiv := some "3" },
            { titleDiv := some "Vocabulary", countDiv := some "4" }] }]
    kanjiProgressDiv := some { labelCountDiv := some "120", axisMaxDiv := some "500" }
    vocabProgressDiv := some { labelCountDiv := some "30%", axisMaxDiv := some "1000" } }

/-- The stats record get_stats produces from goodDoc. -/
def goodStats : ProfileStats :=
  { username := "crabigator"
    level := "12"
    stage := "Turtle"
    serving_since := ⟨2020, 1, 2, 3, 4, 5⟩
    srsStages :=
      [("Guru",
        { title := "Guru", total := 7,
          subjects :=
            [("Kanji", { title := "Kanji", count := 3 }),
             ("Vocabulary", { title := "Vocabulary", count := 4 })] })]
    kanjiProg := { known := 3, max := "500", percent := "120" }
    vocabProg := { known := 4, max := "1000", percent := "30%" } }

/-- The message text run() renders from goodStats. -/
def goodText : String :=
  match buildText goodStats with
  | .ok t => t
  | .error _ => ""

/-- goodDoc with the username element removed: soup.find returns None. -/
def docNoUsername : Doc := { goodDoc with usernameDiv := none }

/-- goodDoc with the level element removed. -/
def docNoLevel : Doc := { goodDoc with levelDiv := none }

/-- goodDoc with the serving-since span removed. -/
def docNoServingSpan : Doc := { goodDoc with servingSinceSpan := none }

/-- goodDoc with the kanji progress-chart region removed. -/
def docNoKanjiChart : Doc := { goodDoc with kanjiProgressDiv := none }

/-- A stage block titled "Novice" — a title outside the fixed stage set —
with total 2 and subjects Kanji 1, Vocabulary 1. -/
def noviceBlock : StageBlock :=
  { titleDiv := some "Novice", totalDiv := some "2",
    subjectBlocks :=
      [{ titleDiv := some "Kanji", countDiv := some "1" },
       { titleDiv := some "Vocabulary", countDiv := some "1" }] }

/-- goodDoc with the extra unrecognised "Novice" stage block appended. -/
def docWithNovice : Doc :=
  { goodDoc with stageBlocks := goodDoc.stageBlocks ++ [noviceBlock] }

/-- The stats record get_stats produces from docWithNovice: the unrecognised
stage is present in the record and counted into the known sums. -/
def noviceStats : ProfileStats :=
  { goodStats with
    srsStages := goodStats.srsStages ++
      [("Novice",
        { title := "Novice", total := 2,
          subjects :=
            [("Kanji", { title := "Kanji", count := 1 }),
             ("Vocabulary", { title := "Vocabulary", count := 1 })] })]
    kanjiProg := { known := 4, max := "500", percent := "120" }
    vocabProg := { known := 5, max := "1000", percent := "30%" } }

/-- The spec's C1 example stage map:
{Apprentice: {Kanji:5}, Guru: {Kanji:3}, Burned: {Kanji:2}}. -/
def c1Stages : List (String × StageRec) :=
  [("Apprentice",
    { title := "Apprentice", total := 5,
      subjects := [("Kanji", { title := "Kanji", count := 5 })] }),
   ("Guru",
    { title := "Guru", total := 3,
      subjects := [("Kanji", { title := "Kanji", count := 3 })] }),
   ("Burned",
    { title := "Burned", total := 2,
      subjects := [("Kanji", { title := "Kanji", count := 2 })] })]

/-- A stage record with no subject entries, used for the emoji-staleness
inputs (the table loop never validates subjects against the stage total). -/
def emptyStageRec (t : String) (total : Int) : StageRec :=
  { title := t, total := total, subjects := [] }

/-- A stage record with four subject categories; the table builder only has
three subject rows, so rendering it raises IndexError. -/
def fourSubjectStageRec : StageRec :=
  { title := "Guru", total := 10,
    subjects :=
      [("Radical", { title := "Radical", count := 1 }),
       ("Kanji", { title := "Kanji", count := 2 }),
       ("Vocabulary", { title := "Vocabulary", count := 3 }),
       ("Kana Vocabulary", { title := "Kana Vocabulary", count := 4 })] }

@[simp] theorem ebind_ok (a : α) (f : α → Except ε β) :
    (Except.ok a >>= f) = f a := rfl

@[simp] theorem ebind_error (e : ε) (f : α → Except ε β) :
    ((Except.error e : Except ε α) >>= f) = (Except.error e : Except ε β) := rfl

theorem getText_ok_iff (o : Option String) (s : String) :
    getText o = .ok s ↔ o = some s := by
  cases o <;> simp [getText]

theorem dictGet_ok (d : List (String × α)) (k : String) (v : α)
    (h : dictGet d k = .ok v) :
    ∃ p, d.find? (fun q => q.1 = k) = some p ∧ p.2 = v := by
  unfold dictGet at h
  rcases hf : d.find? (fun q => q.1 = k) with _ | p <;> rw [hf] at h
  · simp at h
  · simp at h
    exact ⟨p, hf, h⟩

theorem specKnown_cons (cat t : String) (sd : StageRec)
    (rest : List (String × StageRec)) :
    specKnown cat ((t, sd) :: rest) =
      (if t = "Apprentice" then 0 else
        ((sd.subjects.find? (fun q => q.1 = cat)).map (fun q => q.2.count)).getD 0)
      + specKnown cat rest := by
  by_cases ht : t = "Apprentice" <;> simp [specKnown, List.filter_cons, ht]

theorem knownSumAux_ok (cat : String) (stages : List (String × StageRec))
    (acc v : Int) (h : knownSumAux cat stages acc = .ok v) :
    v = acc + specKnown cat stages := by
  induction stages generalizing acc with
  | nil =>
    simp [knownSumAux] at h
    simp [specKnown, h]
  | cons p rest ih =>
    obtain ⟨t, sd⟩ := p
    rw [specKnown_cons]
    by_cases ht : t = "Apprentice"
    · simp only [knownSumAux, ht, ne_eq, not_true_eq_false, if_false] at h
      have := ih _ h
      simp [ht]
      omega
    · simp only [knownSumAux, ne_eq, ht, not_false_eq_true, if_true] at h
      rcases hg : dictGet sd.subjects cat with e | subj <;> rw [hg] at h
      · simp at h
      · simp only [ebind_ok] at h
        have hv := ih _ h
        obtain ⟨q, hq, hqv⟩ := dictGet_ok _ _ _ hg
        rw [if_neg ht, hq]
        have hred : ((some q).map (fun r => r.2.count)).getD 0 = q.2.count := rfl
        rw [hred, hqv]
        omega

theorem hasKey_dictSet_self (d : List (String × α)) (k : String) (v : α) :
    hasKey (dictSet d k v) k = true := by
  induction d with
  | nil => simp [dictSet, hasKey]
  | cons p rest ih =>
    by_cases hp : p.1 = k
    · simp [dictSet, hasKey, hp]
    · simp only [dictSet, if_neg hp, hasKey, List.any_cons, Bool.or_eq_true]
      exact Or.inr ih

theorem hasKey_dictSet_mono (d : List (String × α)) (k k2 : String) (v : α)
    (h : hasKey d k = true) : hasKey (dictSet d k2 v) k = true := by
  induction d with
  | nil => simp [hasKey] at h
  | cons p rest ih =>
    simp only [hasKey, List.any_cons, Bool.or_eq_true, decide_eq_true_eq] at h
    by_cases hp : p.1 = k2
    · simp only [dictSet, if_pos hp, hasKey, List.any_cons, Bool.or_eq_true,
        decide_eq_true_eq]
      rcases h with h | h
      · exact Or.inl (by rw [← hp]; exact h)
      · exact Or.inr h
    · simp only [dictSet, if_neg hp, hasKey, List.any_cons, Bool.or_eq_true,
        decide_eq_true_eq]
      rcases h with h | h
      · exact Or.inl h
      · exact Or.inr (ih h)

theorem extractStages_hasKey_mono (blocks : List StageBlock)
    (acc d : List (String × StageRec)) (k : String)
    (h : extractStages blocks acc = .ok d) (hk : hasKey acc k = true) :
    hasKey d k = true := by
  induction blocks generalizing acc with
  | nil =>
    simp only [extractStages] at h
    simp at h
    exact h ▸ hk
  | cons b rest ih =>
    simp only [extractStages] at h
    rcases h1 : getText b.titleDiv with e | t <;> rw [h1] at h
    · simp at h
    simp only [ebind_ok] at h
    rcases h2 : getText b.totalDiv with e | ts <;> rw [h2] at h
    · simp at h
    simp only [ebind_ok] at h
    rcases h3 : pyInt ts with e | total <;> rw [h3] at h
    · simp at h
    simp only [ebind_ok] at h
    rcases h4 : extractSubjects b.subjectBlocks [] with e | subjects <;> rw [h4] at h
    · simp at h
    simp only [ebind_ok] at h
    exact ih _ h (hasKey_dictSet_mono _ _ _ _ hk)

theorem extractStages_titles (blocks : List StageBlock)
    (acc d : List (String × StageRec)) (h : extractStages blocks acc = .ok d)
    (sb : StageBlock) (hm : sb ∈ blocks) :
    ∃ t, sb.titleDiv = some t ∧ hasKey d t = true := by
  induction blocks generalizing acc with
  | nil => cases hm
  | cons b rest ih =>
    simp only [extractStages] at h
    rcases h1 : getText b.titleDiv with e | t <;> rw [h1] at h
    · simp at h
    simp only [ebind_ok] at h
    rcases h2 : getText b.totalDiv with e | ts <;> rw [h2] at h
    · simp at h
    simp only [ebind_ok] at h
    rcases h3 : pyInt ts with e | total <;> rw [h3] at h
    · simp at h
    simp only [ebind_ok] at h
    rcases h4 : extractSubjects b.subjectBlocks [] with e | subjects <;> rw [h4] at h
    · simp at h
    simp only [ebind_ok] at h
    rcases List.mem_cons.mp hm with hb | hb
    · subst hb
      exact ⟨t, (getText_ok_iff _ _).mp h1,
        extractStages_hasKey_mono _ _ _ _ h (hasKey_dictSet_self _ _ _)⟩
    · exact ih _ h hb

theorem extractSubjects_blocks_present (blocks : List SubjectBlock)
    (acc d : List (String × SubjectRec)) (h : extractSubjects blocks acc = .ok d)
    (sub : SubjectBlock) (hm : sub ∈ blocks) :
    (∃ st, sub.titleDiv = some st) ∧ (∃ c, sub.countDiv = some c) := by
  induction blocks generalizing acc with
  | nil => cases hm
  | cons b rest ih =>
    simp only [extractSubjects] at h
    rcases h1 : getText b.titleDiv with e | t <;> rw [h1] at h
    · simp at h
    simp only [ebind_ok] at h
    rcases h2 : getText b.countDiv with e | cs <;> rw [h2] at h
    · simp at h
    simp only [ebind_ok] at h
    rcases h3 : pyInt cs with e | c <;> rw [h3] at h
    · simp at h
    simp only [ebind_ok] at h
    rcases List.mem_cons.mp hm with hb | hb
    · subst hb
      exact ⟨⟨t, (getText_ok_iff _ _).mp h1⟩, ⟨cs, (getText_ok_iff _ _).mp h2⟩⟩
    · exact ih _ h hb

theorem extractStages_blocks_present (blocks : List StageBlock)
    (acc d : List (String × StageRec)) (h : extractStages blocks acc = .ok d)
    (sb : StageBlock) (hm : sb ∈ blocks) :
    (∃ t, sb.titleDiv = some t) ∧ (∃ ts, sb.totalDiv = some ts) ∧
    ∀ sub ∈ sb.subjectBlocks,
      (∃ st, sub.titleDiv = some st) ∧ (∃ c, sub.countDiv = some c) := by
  induction blocks generalizing acc with
  | nil => cases hm
  | cons b rest ih =>
    simp only [extractStages] at h
    rcases h1 : getText b.titleDiv with e | t <;> rw [h1] at h
    · simp at h
    simp only [ebind_ok] at h
    rcases h2 : getText b.totalDiv with e | ts <;> rw [h2] at h
    · simp at h
    simp only [ebind_ok] at h
    rcases h3 : pyInt ts with e | total <;> rw [h3] at h
    · simp at h
    simp only [ebind_ok] at h
    rcases h4 : extractSubjects b.subjectBlocks [] with e | subjects <;> rw [h4] at h
    · simp at h
    simp only [ebind_ok] at h
    rcases List.mem_cons.mp hm with hb | hb
    · subst hb
      exact ⟨⟨t, (getText_ok_iff _ _).mp h1⟩, ⟨ts, (getText_ok_iff _ _).mp h2⟩,
        fun sub hsub => extractSubjects_blocks_present _ _ _ h4 sub hsub⟩
    · exact ih _ h hb

theorem extractProgress_ok_inv (cat : String) (pd : Option ProgressDiv)
    (stages : List (String × StageRec)) (cp : CategoryProgress)
    (h : extractProgress cat pd stages = .ok cp) :
    ∃ pdv, pd = some pdv ∧ pdv.labelCountDiv = some cp.percent ∧
      pdv.axisMaxDiv = some cp.max ∧ knownSum cat stages = .ok cp.known := by
  cases pd with
  | none => simp [extractProgress] at h
  | some d =>
    simp only [extractProgress] at h
    rcases h1 : getText d.labelCountDiv with e | percent <;> rw [h1] at h
    · simp at h
    simp only [ebind_ok] at h
    rcases h2 : getText d.axisMaxDiv with e | mx <;> rw [h2] at h
    · simp at h
    simp only [ebind_ok] at h
    rcases h3 : knownSum cat stages with e | known <;> rw [h3] at h
    · simp at h
    simp only [ebind_ok, Except.ok.injEq] at h
    subst h
    refine ⟨d, ?_, ?_, ?_, ?_⟩ <;>
      first
        | rfl
        | exact (getText_ok_iff _ _).mp h1
        | exact (getText_ok_iff _ _).mp h2

theorem get_stats_ok_inv (doc : Doc) (stats : ProfileStats)
    (h : get_stats doc = .ok stats) :
    doc.usernameDiv = some stats.username ∧
    doc.levelDiv = some stats.level ∧
    doc.stageDiv = some stats.stage ∧
    (∃ ss, servingSinceStr doc = .ok ss ∧ strptimeWK ss = .ok stats.serving_since) ∧
    extractStages doc.stageBlocks [] = .ok stats.srsStages ∧
    extractProgress "Kanji" doc.kanjiProgressDiv stats.srsStages = .ok stats.kanjiProg ∧
    extractProgress "Vocabulary" doc.vocabProgressDiv stats.srsStages =
      .ok stats.vocabProg := by
  unfold get_stats at h
  rcases c1 : servingSinceStr doc with e | ss <;> rw [c1] at h
  · simp at h
  simp only [ebind_ok] at h
  rcases c2 : getText doc.usernameDiv with e | username <;> rw [c2] at h
  · simp at h
  simp only [ebind_ok] at h
  rcases c3 : getText doc.levelDiv with e | level <;> rw [c3] at h
  · simp at h
  simp only [ebind_ok] at h
  rcases c4 : getText doc.stageDiv with e | stage <;> rw [c4] at h
  · simp at h
  simp only [ebind_ok] at h
  rcases c5 : strptimeWK ss with e | dt <;> rw [c5] at h
  · simp at h
  simp only [ebind_ok] at h
  rcases c6 : extractStages doc.stageBlocks [] with e | stages <;> rw [c6] at h
  · simp at h
  simp only [ebind_ok] at h
  rcases c7 : extractProgress "Kanji" doc.kanjiProgressDiv stages with e | kanji <;>
    rw [c7] at h
  · simp at h
  simp only [ebind_ok] at h
  rcases c8 : extractProgress "Vocabulary" doc.vocabProgressDiv stages with e | vocab <;>
    rw [c8] at h
  · simp at h
  simp only [ebind_ok, Except.ok.injEq] at h
  subst h
  refine ⟨?_, ?_, ?_, ⟨ss, ?_, ?_⟩, ?_, ?_, ?_⟩ <;>
    first
      | rfl
      | exact (getText_ok_iff _ _).mp c2
      | exact (getText_ok_iff _ _).mp c3
      | exact (getText_ok_iff _ _).mp c4
      | exact c1
      | exact c5
      | exact c6
      | exact c7
      | exact c8

theorem addSubjectRows_length (subs : List (String × SubjectRec)) (i : Nat)
    (lines lines2 : List String) (h : addSubjectRows subs i lines = .ok lines2) :
    lines2.length = lines.length := by
  induction subs generalizing i lines with
  | nil =>
    simp only [addSubjectRows] at h
    simp at h
    rw [h]
  | cons p rest ih =>
    obtain ⟨subj, sd⟩ := p
    simp only [addSubjectRows] at h
    rcases hl : pyIndex lines i with e | cur <;> rw [hl] at h
    · simp at h
    simp only [ebind_ok] at h
    have := ih _ _ h
    simpa using this

theorem buildTableLoop_length (stages : List (String × StageRec))
    (emoji : Option String) (lines lines2 : List String)
    (h : buildTableLoop stages emoji lines = .ok lines2) :
    lines2.length = lines.length := by
  induction stages generalizing emoji lines with
  | nil =>
    simp only [buildTableLoop] at h
    simp at h
    rw [h]
  | cons p rest ih =>
    obtain ⟨stage, sd⟩ := p
    simp only [buildTableLoop] at h
    rcases h1 : readEmoji (stageEmoji stage emoji) with e | em <;> rw [h1] at h
    · simp at h
    simp only [ebind_ok] at h
    rcases h2 : pyIndex lines 0 with e | cur <;> rw [h2] at h
    · simp at h
    simp only [ebind_ok] at h
    rcases h3 : addSubjectRows sd.subjects 1
        (lines.set 0 (cur ++ stage ++ " " ++ em ++ "|" ++ toString sd.total ++ "|"))
      with e | lines1 <;> rw [h3] at h
    · simp at h
    simp only [ebind_ok] at h
    have hrest := ih _ _ h
    have hadd := addSubjectRows_length _ _ _ _ h3
    simp at hadd
    omega

theorem buildTable_ok_shape (stages : List (String × StageRec))
    (lines : List String) (h : buildTable stages = .ok lines) :
    lines.length = 5 ∧ lines[1]? = some tableSeparator := by
  unfold buildTable at h
  rcases hl : buildTableLoop stages none ["|", "|", "|", "|"] with e | ls <;>
    rw [hl] at h
  · simp at h
  simp at h
  have hlen := buildTableLoop_length _ _ _ _ hl
  simp at hlen
  cases ls with
  | nil => simp at hlen
  | cons a t =>
    have hins : pyListInsert 1 tableSeparator (a :: t) = a :: tableSeparator :: t := by
      simp [pyListInsert]
    rw [hins] at h
    rw [← h]
    simp at hlen
    simp [hlen]

theorem fetchAndParse_200 (doc : Doc) :
    fetchAndParse (.ok (200, doc)) = get_stats doc := by
  simp [fetchAndParse, fetch_profile, raise_for_status]

/-- C1: for every parsed record, the known value of each of the two
categories Kanji and Vocabulary equals the sum of that category's per-stage
counts over all stages whose title is not "Apprentice"; in particular, on the
stage map {Apprentice: {Kanji:5}, Guru: {Kanji:3}, Burned: {Kanji:2}} the
known-kanji value is 5 (= 3 + 2). -/
theorem known_counts_exclude_apprentice (doc : Doc) (stats : ProfileStats)
    (h : get_stats doc = .ok stats) :
    stats.kanjiProg.known = specKnown "Kanji" stats.srsStages ∧
    stats.vocabProg.known = specKnown "Vocabulary" stats.srsStages ∧
    knownSum "Kanji" c1Stages = .ok 5 := by
  obtain ⟨-, -, -, -, -, hk, hv⟩ := get_stats_ok_inv doc stats h
  obtain ⟨dk, hdk, hkl, hkm, hks⟩ := extractProgress_ok_inv _ _ _ _ hk
  obtain ⟨dv, hdv, hvl, hvm, hvs⟩ := extractProgress_ok_inv _ _ _ _ hv
  refine ⟨?_, ?_, by rfl⟩
  · have hx := knownSumAux_ok _ _ _ _ hks
    omega
  · have hx := knownSumAux_ok _ _ _ _ hvs
    omega

/-- Witness for C1 at the concrete document goodDoc. -/
theorem known_counts_exclude_apprentice_witness :
    goodStats.kanjiProg.known = specKnown "Kanji" goodStats.srsStages ∧
    goodStats.vocabProg.known = specKnown "Vocabulary" goodStats.srsStages ∧
    knownSum "Kanji" c1Stages = .ok 5 :=
  known_counts_exclude_apprentice goodDoc goodStats (by rfl)

/-- C2 (code-bug evidence): an unrecognised stage title is NOT rendered with
a defined fallback: after a recognised stage it reuses the previous
iteration's emoji (here "Novice" is rendered with Apprentice's ":egg:"), and
as the first stage it crashes the table loop with NameError. -/
theorem unknown_stage_emoji_stale_or_crash :
    buildTable [("Apprentice", emptyStageRec "Apprentice" 1),
                ("Novice", emptyStageRec "Novice" 2)] =
      .ok ["|Apprentice :egg:|1|Novice :egg:|2|", tableSeparator, "|", "|", "|"] ∧
    buildTable [("Novice", emptyStageRec "Novice" 2)] =
      .error (.nameError "emoji") ∧
    "Novice" ∉ fixedStageTitles :=
  ⟨by rfl, by rfl, by decide⟩

/-- C3 (counterexample): documents missing different required anchors fail
with the same generic AttributeError — username vs level both give the
"no attribute text" error, and serving-since span vs kanji progress-chart
region both give the "no attribute find" error — so the error does not
identify which anchor was missing and is not a dedicated parse error carrying
the anchor. -/
theorem missing_anchor_error_not_identifying :
    docNoUsername.usernameDiv = none ∧ docNoLevel.levelDiv = none ∧
    docNoUsername.levelDiv ≠ none ∧ docNoLevel.usernameDiv ≠ none ∧
    get_stats docNoUsername =
      .error (.attributeError "NoneType object has no attribute text") ∧
    get_stats docNoLevel =
      .error (.attributeError "NoneType object has no attribute text") ∧
    docNoServingSpan.servingSinceSpan = none ∧
    docNoKanjiChart.kanjiProgressDiv = none ∧
    docNoServingSpan.kanjiProgressDiv ≠ none ∧
    docNoKanjiChart.servingSinceSpan ≠ none ∧
    get_stats docNoServingSpan =
      .error (.attributeError "NoneType object has no attribute find") ∧
    get_stats docNoKanjiChart =
      .error (.attributeError "NoneType object has no attribute find") :=
  ⟨rfl, rfl, by decide, by decide, by rfl, by rfl, rfl, rfl, by decide, by decide,
    by rfl, by rfl⟩

/-- C3 (amended): extraction never returns a record with a null or
placeholder value in any field: whenever get_stats succeeds, every field of
the record comes verbatim from a present anchor — the username, level, stage
and serving-since elements, both progress-chart regions with their count and
max labels, and every stage block's title, total and subject-block texts — so
a missing required anchor forces an error; that error, however, is only a
generic attribute error that does not name the missing anchor. -/
theorem parse_success_fields_from_anchors (doc : Doc) (stats : ProfileStats)
    (h : get_stats doc = .ok stats) :
    doc.usernameDiv = some stats.username ∧
    doc.levelDiv = some stats.level ∧
    doc.stageDiv = some stats.stage ∧
    (∃ ss, servingSinceStr doc = .ok ss ∧ strptimeWK ss = .ok stats.serving_since) ∧
    (∃ pdv, doc.kanjiProgressDiv = some pdv ∧
      pdv.labelCountDiv = some stats.kanjiProg.percent ∧
      pdv.axisMaxDiv = some stats.kanjiProg.max) ∧
    (∃ pdv, doc.vocabProgressDiv = some pdv ∧
      pdv.labelCountDiv = some stats.vocabProg.percent ∧
      pdv.axisMaxDiv = some stats.vocabProg.max) ∧
    (∀ sb ∈ doc.stageBlocks,
      (∃ t, sb.titleDiv = some t) ∧ (∃ ts, sb.totalDiv = some ts) ∧
      ∀ sub ∈ sb.subjectBlocks,
        (∃ st, sub.titleDiv = some st) ∧ (∃ c, sub.countDiv = some c)) := by
  obtain ⟨h1, h2, h3, h4, h5, h6, h7⟩ := get_stats_ok_inv doc stats h
  obtain ⟨dk, hdk, hkl, hkm, -⟩ := extractProgress_ok_inv _ _ _ _ h6
  obtain ⟨dv, hdv, hvl, hvm, -⟩ := extractProgress_ok_inv _ _ _ _ h7
  exact ⟨h1, h2, h3, h4, ⟨dk, hdk, hkl, hkm⟩, ⟨dv, hdv, hvl, hvm⟩,
    fun sb hm => extractStages_blocks_present _ _ _ h5 sb hm⟩

/-- Witness for the amended C3 at goodDoc. -/
theorem parse_success_fields_from_anchors_witness :
    goodDoc.usernameDiv = some goodStats.username ∧
    goodDoc.levelDiv = some goodStats.level ∧
    goodDoc.stageDiv = some goodStats.stage ∧
    (∃ ss, servingSinceStr goodDoc = .ok ss ∧
      strptimeWK ss = .ok goodStats.serving_since) ∧
    (∃ pdv, goodDoc.kanjiProgressDiv = some pdv ∧
      pdv.labelCountDiv = some goodStats.kanjiProg.percent ∧
      pdv.axisMaxDiv = some goodStats.kanjiProg.max) ∧
    (∃ pdv, goodDoc.vocabProgressDiv = some pdv ∧
      pdv.labelCountDiv = some goodStats.vocabProg.percent ∧
      pdv.axisMaxDiv = some goodStats.vocabProg.max) ∧
    (∀ sb ∈ goodDoc.stageBlocks,
      (∃ t, sb.titleDiv = some t) ∧ (∃ ts, sb.totalDiv = some ts) ∧
      ∀ sub ∈ sb.subjectBlocks,
        (∃ st, sub.titleDiv = some st) ∧ (∃ c, sub.countDiv = some c)) :=
  parse_success_fields_from_anchors goodDoc goodStats (by rfl)

/-- C4 (counterexample): a 304 response status is not 2xx, yet the fetch does
not raise (raise_for_status only raises for 4xx/5xx), the run completes
successfully and the webhook POST is invoked. -/
theorem status_304_no_retrieval_error :
    (run (.ok (304, goodDoc)) (.ok 200) (some "https://hooks.example/x")).result
      = .ok () ∧
    (run (.ok (304, goodDoc)) (.ok 200)
        (some "https://hooks.example/x")).postAttempts.length = 1 :=
  ⟨by rfl, by rfl⟩

/-- C4 (amended): for every 4xx/5xx response status the fetch fails with an
HTTPError carrying the status code and the webhook POST is never invoked in
that run. -/
theorem status_4xx_5xx_aborts_before_post (s : Nat) (h4 : 400 ≤ s) (h6 : s < 600)
    (doc : Doc) (postResp : Except PyError Nat) (url : Option String) :
    run (.ok (s, doc)) postResp url =
      { result := .error (.httpError s), postAttempts := [] } := by
  have hrfs : raise_for_status s = .error (.httpError s) := by
    unfold raise_for_status
    rw [if_pos ⟨h4, h6⟩]
  simp [run, fetchAndParse, fetch_profile, hrfs]

/-- Witness for the amended C4 at status 404. -/
theorem status_4xx_5xx_aborts_before_post_witness :
    run (.ok (404, goodDoc)) (.ok 200) (some "https://hooks.example/x") =
      { result := .error (.httpError 404), postAttempts := [] } :=
  status_4xx_5xx_aborts_before_post 404 (by decide) (by decide) goodDoc (.ok 200)
    (some "https://hooks.example/x")

/-- C5 (counterexample): the profile fetch succeeds, the webhook POST returns
a non-success status 500, and the run nevertheless completes successfully:
run() never checks the POST response, so the delivery failure is silently
ignored. -/
theorem webhook_error_status_ignored :
    (run (.ok (200, goodDoc)) (.ok 500) (some "https://hooks.example/x")).result
      = .ok () := by rfl

/-- C5 (amended): a transport error raised by the webhook POST propagates to
the caller with exactly one POST attempt (no retry); a non-success HTTP
status in the POST response, by contrast, is never checked and the run
completes successfully. -/
theorem webhook_transport_error_propagates (doc : Doc) (stats : ProfileStats)
    (text : String) (hs : get_stats doc = .ok stats)
    (ht : buildText stats = .ok text) (e : PyError) (st : Nat) (url : String) :
    run (.ok (200, doc)) (.error e) (some url) =
      { result := .error e, postAttempts := [(some url, text)] } ∧
    run (.ok (200, doc)) (.ok st) (some url) =
      { result := .ok (), postAttempts := [(some url, text)] } := by
  have hf : fetchAndParse (.ok (200, doc)) = .ok stats :=
    (fetchAndParse_200 doc).trans hs
  constructor <;> simp [run, hf, ht, pyRequestsPost]

/-- Witness for the amended C5 at goodDoc. -/
theorem webhook_transport_error_propagates_witness :
    run (.ok (200, goodDoc)) (.error (.requestException "connection reset"))
        (some "https://hooks.example/x") =
      { result := .error (.requestException "connection reset"),
        postAttempts := [(some "https://hooks.example/x", goodText)] } ∧
    run (.ok (200, goodDoc)) (.ok 500) (some "https://hooks.example/x") =
      { result := .ok (),
        postAttempts := [(some "https://hooks.example/x", goodText)] } :=
  webhook_transport_error_propagates goodDoc goodStats goodText (by rfl) (by rfl)
    (.requestException "connection reset") 500 "https://hooks.example/x"

/-- C6 (counterexample): a document containing a stage block titled "Novice",
a title outside the fixed stage set, is extracted without any error and the
unrecognised stage is silently included in the resulting record. -/
theorem unknown_stage_included_ok :
    get_stats docWithNovice = .ok noviceStats ∧
    hasKey noviceStats.srsStages "Novice" = true ∧
    "Novice" ∉ fixedStageTitles :=
  ⟨by rfl, by rfl, by decide⟩

/-- C6 (amended): extraction performs no validation of stage titles:
whenever the stage loop succeeds, every stage block's title — recognised or
not — ends up as a key of the record's stage dict, and no error is ever
raised on account of an unrecognised title. -/
theorem stage_blocks_all_included (blocks : List StageBlock)
    (d : List (String × StageRec)) (h : extractStages blocks [] = .ok d)
    (sb : StageBlock) (hm : sb ∈ blocks) :
    ∃ t, sb.titleDiv = some t ∧ hasKey d t = true :=
  extractStages_titles blocks [] d h sb hm

/-- Witness for the amended C6: the Novice block of docWithNovice. -/
theorem stage_blocks_all_included_witness :
    ∃ t, noviceBlock.titleDiv = some t ∧
      hasKey noviceStats.srsStages t = true :=
  stage_blocks_all_included docWithNovice.stageBlocks noviceStats.srsStages
    (by rfl) noviceBlock (by decide)

/-- C7: the rendered kanji and vocabulary progression lines have the shape
"<label>: known/max (percent)", where known is the Aggregator's per-stage sum
excluding Apprentice (not the chart's own count label) and max and percent
are the page-displayed chart labels passed through verbatim. -/
theorem progress_lines_shape (doc : Doc) (stats : ProfileStats)
    (h : get_stats doc = .ok stats) :
    kanjiLine stats = "Kanji Progression: " ++ toString stats.kanjiProg.known
      ++ "/" ++ stats.kanjiProg.max ++ " (" ++ stats.kanjiProg.percent ++ ")\n" ∧
    vocabLine stats = "Vocabulary Progression: " ++ toString stats.vocabProg.known
      ++ "/" ++ stats.vocabProg.max ++ " (" ++ stats.vocabProg.percent ++ ")\n\n" ∧
    stats.kanjiProg.known = specKnown "Kanji" stats.srsStages ∧
    stats.vocabProg.known = specKnown "Vocabulary" stats.srsStages ∧
    (∃ pdv, doc.kanjiProgressDiv = some pdv ∧
      pdv.axisMaxDiv = some stats.kanjiProg.max ∧
      pdv.labelCountDiv = some stats.kanjiProg.percent) ∧
    (∃ pdv, doc.vocabProgressDiv = some pdv ∧
      pdv.axisMaxDiv = some stats.vocabProg.max ∧
      pdv.labelCountDiv = some stats.vocabProg.percent) := by
  obtain ⟨-, -, -, -, -, hk, hv⟩ := get_stats_ok_inv doc stats h
  obtain ⟨dk, hdk, hkl, hkm, hks⟩ := extractProgress_ok_inv _ _ _ _ hk
  obtain ⟨dv, hdv, hvl, hvm, hvs⟩ := extractProgress_ok_inv _ _ _ _ hv
  refine ⟨rfl, rfl, ?_, ?_, ⟨dk, hdk, hkm, hkl⟩, ⟨dv, hdv, hvm, hvl⟩⟩
  · have hx := knownSumAux_ok _ _ _ _ hks
    omega
  · have hx := knownSumAux_ok _ _ _ _ hvs
    omega

/-- Witness for C7 at goodDoc, where the chart count label ("120") differs
from the aggregated known value (3) and the line uses the latter. -/
theorem progress_lines_shape_witness :
    kanjiLine goodStats = "Kanji Progression: "
      ++ toString goodStats.kanjiProg.known ++ "/" ++ goodStats.kanjiProg.max
      ++ " (" ++ goodStats.kanjiProg.percent ++ ")\n" ∧
    vocabLine goodStats = "Vocabulary Progression: "
      ++ toString goodStats.vocabProg.known ++ "/" ++ goodStats.vocabProg.max
      ++ " (" ++ goodStats.vocabProg.percent ++ ")\n\n" ∧
    goodStats.kanjiProg.known = specKnown "Kanji" goodStats.srsStages ∧
    goodStats.vocabProg.known = specKnown "Vocabulary" goodStats.srsStages ∧
    (∃ pdv, goodDoc.kanjiProgressDiv = some pdv ∧
      pdv.axisMaxDiv = some goodStats.kanjiProg.max ∧
      pdv.labelCountDiv = some goodStats.kanjiProg.percent) ∧
    (∃ pdv, goodDoc.vocabProgressDiv = some pdv ∧
      pdv.axisMaxDiv = some goodStats.vocabProg.max ∧
      pdv.labelCountDiv = some goodStats.vocabProg.percent) :=
  progress_lines_shape goodDoc goodStats (by rfl)

/-- C8 (counterexample): with only two subject categories observed the table
still carries three subject rows (the last is the empty "|"), and a stage
with four subject categories makes rendering fail with IndexError — the
subject-row count is fixed at three, not one per observed category. -/
theorem table_rows_fixed_three :
    buildTable goodStats.srsStages =
      .ok ["|Guru :hatching_chick:|7|", tableSeparator,
           "|Kanji|3|", "|Vocabulary|4|", "|"] ∧
    buildTable [("Guru", fourSubjectStageRec)] =
      .error (.indexError "list index out of range") :=
  ⟨by rfl, by rfl⟩

/-- C8 (amended): whenever the table builder succeeds, its output has exactly
five rows: the stage-totals row, the separator row inserted right after it,
and exactly three positional subject rows regardless of how many subject
categories were observed. -/
theorem table_shape_fixed_rows (stages : List (String × StageRec))
    (lines : List String) (h : buildTable stages = .ok lines) :
    lines.length = 5 ∧ lines[1]? = some tableSeparator :=
  buildTable_ok_shape stages lines h

/-- Witness for the amended C8 at goodStats. -/
theorem table_shape_fixed_rows_witness :
    (["|Guru :hatching_chick:|7|", tableSeparator,
      "|Kanji|3|", "|Vocabulary|4|", "|"] : List String).length = 5 ∧
    (["|Guru :hatching_chick:|7|", tableSeparator,
      "|Kanji|3|", "|Vocabulary|4|", "|"] : List String)[1]?
      = some tableSeparator :=
  table_shape_fixed_rows goodStats.srsStages _ (by rfl)

/-- C9: extraction is deterministic: get_stats is a pure function of the
document alone (no other input, no retained state), so parsing the same
document text twice yields identical records, with the same fields and the
same stage and subject entries in the same order. -/
theorem extraction_deterministic (d1 d2 : Doc) (h : d1 = d2) :
    get_stats d1 = get_stats d2 := by rw [h]

/-- Witness for C9 at goodDoc. -/
theorem extraction_deterministic_witness :
    get_stats goodDoc = get_stats goodDoc :=
  extraction_deterministic goodDoc goodDoc rfl

/-- C10: when the optional webhook destination is omitted (None), a run whose
fetch, extraction and rendering all succeed still attempts the publisher
POST, passing url=None to requests.post, and fails right there with
MissingSchema — it does not complete successfully by skipping publication. -/
theorem absent_webhook_url_post_attempted (doc : Doc) (stats : ProfileStats)
    (text : String) (hs : get_stats doc = .ok stats)
    (ht : buildText stats = .ok text) (postResp : Except PyError Nat) :
    run (.ok (200, doc)) postResp none =
      { result := .error (.missingSchema "Invalid URL None: No scheme supplied"),
        postAttempts := [(none, text)] } := by
  have hf : fetchAndParse (.ok (200, doc)) = .ok stats :=
    (fetchAndParse_200 doc).trans hs
  simp [run, hf, ht, pyRequestsPost]

/-- Witness for C10 at goodDoc. -/
theorem absent_webhook_url_post_attempted_witness :
    run (.ok (200, goodDoc)) (.ok 200) none =
      { result := .error (.missingSchema "Invalid URL None: No scheme supplied"),
        postAttempts := [(none, goodText)] } :=
  absent_webhook_url_post_attempted goodDoc goodStats goodText (by rfl) (by rfl)
    (.ok 200)
